import Mathlib

/-!
Verification of the native-library build orchestration logic of pysam's
setup.py (configuration resolution for htslib provisioning).

The Python source is embedded shallowly:
  - effectful calls (filesystem probes, subprocess invocation of configure)
    become oracle parameters, so every function stays pure and executable;
  - Python exceptions become an explicit error type carried by Except;
  - the current working directory becomes an explicit state record threaded
    through the scoped-acquisition helper changedir;
  - config.h is a list of lines (each a list of characters, as read with a
    trailing newline), and writes are returned as values.
-/

namespace PysamSetup

/-- Python exceptions that the embedded fragments of setup.py can raise. -/
inductive PyError where
  | valueError
  | attributeError
  | nameError
  | unboundLocalError
  deriving DecidableEq, Repr

/-- Outcome of one subprocess.call of ./configure: an exit code, or an
OSError raised by the invocation itself. -/
inductive RunOutcome where
  | exited (code : Int)
  | oserror
  deriving DecidableEq, Repr

/-- Embeds run_configure (setup.py lines 52-62): True exactly when the
subprocess call returned exit code 0; a non-zero exit code or an OSError
yields False, never an exception. -/
def run_configure (o : RunOutcome) : Bool :=
  match o with
  | RunOutcome.exited code => code == 0
  | RunOutcome.oserror => false

/-- Process-level state visible to the embedded code: the current working
directory and the files written so far (path, content). -/
structure OSState where
  cwd : String
  files : List (String × String)
  deriving DecidableEq, Repr

/-- Embeds the changedir context manager (setup.py lines 42-49): save the
current working directory, chdir to the given path, run the body, and in a
finally block chdir back to the saved directory.  The body's result type is
an arbitrary type rho, so normal completion, early return and raised
exceptions of the source block are all covered: an exception is just a value
of rho in this embedding, and the finally clause runs regardless. -/
def changedir {rho : Type} (path : String) (body : OSState → rho × OSState)
    (s : OSState) : rho × OSState :=
  let save_dir := s.cwd
  let s1 : OSState := { s with cwd := path }
  let r := body s1
  (r.1, { r.2 with cwd := save_dir })

/-- Embeds configure_library (setup.py lines 65-80) with effects abstracted:
fs_exists is the os.path.exists oracle and run maps an option string to the
outcome of its configure invocation.  Raises ValueError when the configure
script is absent; otherwise tries env_options first (when not None), then
each fallback option in order, returning the first success, or None. -/
def configure_library (fs_exists : String → Bool) (run : String → RunOutcome)
    (library_dir : String) (env_options : Option String)
    (options : List String) : Except PyError (Option String) :=
  if !(fs_exists (library_dir ++ "/configure")) then
    Except.error PyError.valueError
  else
    match env_options with
    | some e =>
      if run_configure (run e) then Except.ok (some e)
      else Except.ok (options.find? (fun o => run_configure (run o)))
    | none => Except.ok (options.find? (fun o => run_configure (run o)))

/-- The loop over fallback options inside configure_library, in the
stateful embedding: each configure invocation may change the state. -/
def try_options_st (run : String → OSState → RunOutcome × OSState) :
    List String → OSState → Option String × OSState
  | [], s => (none, s)
  | o :: rest, s =>
    let r := run o s
    if run_configure r.1 then (some o, r.2) else try_options_st run rest r.2

/-- Stateful embedding of configure_library (setup.py lines 65-80), keeping
the working-directory discipline of the source: the whole attempt sequence
runs inside changedir library_dir. -/
def configure_library_st (fs_exists : String → Bool)
    (run : String → OSState → RunOutcome × OSState) (library_dir : String)
    (env_options : Option String) (options : List String) (s : OSState) :
    Except PyError (Option String) × OSState :=
  if !(fs_exists (library_dir ++ "/configure")) then
    (Except.error PyError.valueError, s)
  else
    changedir library_dir (fun s1 =>
      match env_options with
      | some e =>
        let r := run e s1
        if run_configure r.1 then (Except.ok (some e), r.2)
        else
          let t := try_options_st run options r.2
          (Except.ok t.1, t.2)
      | none =>
        let t := try_options_st run options s1
        (Except.ok t.1, t.2)) s

/-- Embeds check_cython (setup.py lines 83-103).  The first argument tells
whether the import of cy_build succeeds; the second is the binding state of
the module-level global HTSLIB_MODE at call time (none when unbound).  Both
branches format a log message that reads the global HTSLIB_MODE (not the
local htslib_mode), so when the global is unbound the function raises
NameError: in the import branch this escapes the try (only ImportError is
caught), in the except branch it is raised directly.  On success it returns
(source_pattern, cmdclass keys, htslib_mode). -/
def check_cython (cy_build_available : Bool)
    (HTSLIB_MODE_global : Option String) :
    Except PyError (String × List String × String) :=
  if cy_build_available then
    match HTSLIB_MODE_global with
    | none => Except.error PyError.nameError
    | some _ => Except.ok ("pysam/c%s.pyx", ["build_ext"], "shared")
  else
    match HTSLIB_MODE_global with
    | none => Except.error PyError.nameError
    | some _ => Except.ok ("pysam/c%s.c", [], "separate")

/-- Embeds get_exclude (setup.py lines 115-151): the per-package tuples of
sources excluded from compilation. -/
def get_exclude (k : String) : List String :=
  if k == "samtools" then
    ["bam2bed.c", "bamcheck.c", "bgzip.c", "calDepth.c", "chk_indel.c",
     "hfile_irods.c", "htslib-1.3", "main.c", "maq2sam.c", "md5fa.c",
     "md5sum-lite.c", "razip.c", "vcf-miniview.c", "wgsim.c"]
  else if k == "bcftools" then
    ["peakfit.c", "peakfit.h", "plugins", "polysomy.c", "reheader.c", "test"]
  else if k == "htslib" then
    ["htslib/bgzip.c", "htslib/hfile_irods.c", "htslib/htsfile.c",
     "htslib/tabix.c"]
  else []

/-- Embeds get_htslib_source (setup.py lines 154-158). -/
def get_htslib_source (htslib_mode : String) : String :=
  if htslib_mode == "shared" || htslib_mode == "separate" then "builtin"
  else ""

/-- The exact content written to htslib/config.h when no configure option
succeeded (setup.py lines 172-174). -/
def placeholder_config_h : String :=
  "/* empty config.h created by pysam */\n" ++
  "/* conservative compilation options */\n"

/-- Embeds update_htslib_configure_options (setup.py lines 161-175) with the
same effect abstraction as configure_library.  Returns the options value
together with the content written to htslib/config.h (none when nothing is
written).  In a vendored mode it calls configure_library on the htslib
directory with fallback list containing only the enable-libcurl option; when
that returns None it writes the placeholder header.  For any other mode the
final return reads the never-assigned local variable options, which raises
UnboundLocalError in Python. -/
def update_htslib_configure_options (htslib_mode : String)
    (fs_exists : String → Bool) (run : String → RunOutcome)
    (htslib_configure_options : Option String) :
    Except PyError (Option String × Option String) :=
  if ["shared", "separate"].contains htslib_mode then
    match configure_library fs_exists run "htslib" htslib_configure_options
        ["--enable-libcurl"] with
    | Except.error e => Except.error e
    | Except.ok options =>
      match options with
      | none => Except.ok (none, some placeholder_config_h)
      | some o => Except.ok (some o, none)
  else Except.error PyError.unboundLocalError

/-- Embeds get_internal_htslib_libraries_for_shared (setup.py lines
178-194), with the interpreter facts (python version, platform, sysconfig
values) passed as arguments. -/
def get_internal_htslib_libraries_for_shared (is_python3 : Bool)
    (minor : Nat) (is_darwin : Bool) (soabi cache_tag abiflags : String) :
    List String :=
  if is_python3 then
    if 5 ≤ minor then ["chtslib." ++ soabi]
    else if is_darwin then ["chtslib"]
    else ["chtslib." ++ cache_tag ++ abiflags]
  else ["chtslib"]

/-- The seven-component result of gen_htslib_vars (setup.py lines 201-210).
Include directories hold Python values that may be None (the include
directory environment variable may be unset), hence Option String. -/
structure HtslibVars where
  htslib_sources : List String
  shared_htslib_sources : List String
  chtslib_sources : List String
  htslib_library_dirs : List String
  htslib_include_dirs : List (Option String)
  internal_htslib_libraries : List String
  external_htslib_libraries : List String
  deriving DecidableEq, Repr

/-- Python truthiness of an os.environ.get result: None and the empty
string are falsy, any other string is truthy. -/
def pyTruthy (v : Option String) : Bool :=
  match v with
  | none => false
  | some s => !(s == "")

/-- Embeds gen_htslib_vars (setup.py lines 197-240).  htslib_glob is the
result of the two glob calls over htslib/*.c and htslib/cram/*.c (a
filesystem input); internal_lib is the platform-dependent result of
get_internal_htslib_libraries_for_shared.  An unrecognized mode (with no
external library directory) raises ValueError. -/
def gen_htslib_vars (htslib_library_dir htslib_include_dir : Option String)
    (htslib_mode : String) (htslib_glob : List String)
    (internal_lib : List String) : Except PyError HtslibVars :=
  if pyTruthy htslib_library_dir then
    Except.ok
      { htslib_sources := []
        shared_htslib_sources := []
        chtslib_sources := []
        htslib_library_dirs := htslib_library_dir.toList
        htslib_include_dirs := [htslib_include_dir]
        internal_htslib_libraries := []
        external_htslib_libraries := ["z", "hts"] }
  else if htslib_mode == "separate" then
    let htslib_sources :=
      htslib_glob.filter (fun x => !((get_exclude "htslib").contains x))
    Except.ok
      { htslib_sources := htslib_sources
        shared_htslib_sources := htslib_sources
        chtslib_sources := []
        htslib_library_dirs := []
        htslib_include_dirs := [some "htslib"]
        internal_htslib_libraries := []
        external_htslib_libraries := ["z"] }
  else if htslib_mode == "shared" then
    let shared_htslib_sources :=
      htslib_glob.filter (fun x => !((get_exclude "htslib").contains x))
    Except.ok
      { htslib_sources := []
        shared_htslib_sources := shared_htslib_sources
        chtslib_sources := []
        htslib_library_dirs := ["pysam", "."]
        htslib_include_dirs := [some "htslib"]
        internal_htslib_libraries := internal_lib
        external_htslib_libraries := ["z"] }
  else Except.error PyError.valueError

/-- Python str.startswith on character lists. -/
def startswithL (pre s : List Char) : Bool :=
  match pre, s with
  | [], _ => true
  | _ :: _, [] => false
  | a :: as, b :: bs => a == b && startswithL as bs

/-- Substring occurrence on character lists (the Python in operator on
strings): the needle occurs somewhere in the haystack. -/
def containsSub (needle : List Char) : List Char → Bool
  | [] => startswithL needle []
  | c :: cs => startswithL needle (c :: cs) || containsSub needle cs

/-- The Python in operator for strings: strContains hay needle is True when
needle occurs as a substring of hay. -/
def strContains (hay needle : String) : Bool :=
  containsSub needle.data hay.data

/-- Python regex class backslash-s over the characters that can occur in a
text line: space, tab, newline, carriage return, vertical tab, form feed. -/
def pyIsSpace (c : Char) : Bool :=
  c == ' ' || c == '\t' || c == '\n' || c == '\x0d' ||
  c == '\x0b' || c == '\x0c'

/-- Embeds re.match of the pattern used in build_config (setup.py line 254):
literal hash-define and one space, a first group of one or more non-space
characters, one or more whitespace characters, and a second group of one or
more non-space characters.  Greedy matching against this pattern succeeds
exactly when the line decomposes that way, and the groups are the maximal
non-space runs. -/
def match_define (line : List Char) : Option (List Char × List Char) :=
  if startswithL ("#define ".data) line then
    let rest := line.drop 8
    let key := rest.takeWhile (fun c => !(pyIsSpace c))
    let rest2 := rest.dropWhile (fun c => !(pyIsSpace c))
    let ws := rest2.takeWhile pyIsSpace
    let rest3 := rest2.dropWhile pyIsSpace
    let value := rest3.takeWhile (fun c => !(pyIsSpace c))
    if key.isEmpty || ws.isEmpty || value.isEmpty then none
    else some (key, value)
  else none

/-- Decimal digit run to a natural number. -/
def digitsToNat (s : List Char) : Nat :=
  s.foldl (fun a c => a * 10 + (c.toNat - 48)) 0

/-- Python int() applied to a non-empty whitespace-free token, as in
Python 2.7 / 3.3 (the interpreters this setup.py supports): an optional
sign followed by one or more decimal digits; anything else raises
ValueError, modelled as none. -/
def pyInt (s : List Char) : Option Int :=
  match s with
  | '+' :: rest =>
    if !rest.isEmpty && rest.all Char.isDigit then
      some (digitsToNat rest : Int)
    else none
  | '-' :: rest =>
    if !rest.isEmpty && rest.all Char.isDigit then
      some (-(digitsToNat rest : Int))
    else none
  | _ =>
    if !s.isEmpty && s.all Char.isDigit then
      some (digitsToNat s : Int)
    else none

/-- One line of the loop body in build_config (setup.py lines 251-255):
none when the line does not start with hash-define and is skipped; otherwise
the key/value pair, or the exception the line raises (AttributeError when
re.match returns None and groups is taken, ValueError when int fails). -/
def parse_define_line (line : List Char) :
    Option (Except PyError (List Char × Int)) :=
  if startswithL ("#define".data) line then
    some (match match_define line with
      | none => Except.error PyError.attributeError
      | some kv =>
        match pyInt kv.2 with
        | none => Except.error PyError.valueError
        | some n => Except.ok (kv.1, n))
  else none

/-- Python dict assignment on an association list: overwrite the value at
an existing key in place, or append a new binding. -/
def assocSet (m : List (List Char × Int)) (k : List Char) (v : Int) :
    List (List Char × Int) :=
  match m with
  | [] => [(k, v)]
  | kv :: rest => if kv.1 = k then (k, v) :: rest else kv :: assocSet rest k v

/-- collections.defaultdict(int) lookup: the stored value, or 0 for a
missing key. -/
def lookupDefault0 (m : List (List Char × Int)) (k : List Char) : Int :=
  match m with
  | [] => 0
  | kv :: rest => if kv.1 = k then kv.2 else lookupDefault0 rest k

/-- The loop of build_config over the lines of htslib/config.h (setup.py
lines 251-255), accumulating config_values; the first raising line aborts
with its exception. -/
def read_config_values (lines : List (List Char))
    (acc : List (List Char × Int)) :
    Except PyError (List (List Char × Int)) :=
  match lines with
  | [] => Except.ok acc
  | line :: rest =>
    match parse_define_line line with
    | none => read_config_values rest acc
    | some (Except.error e) => Except.error e
    | some (Except.ok kv) => read_config_values rest (assocSet acc kv.1 kv.2)

/-- The whitelist of flag names written to pysam/config.py (setup.py lines
256-262), in source order. -/
def config_whitelist : List String :=
  ["ENABLE_PLUGINS", "HAVE_COMMONCRYPTO", "HAVE_GMTIME_R", "HAVE_HMAC",
   "HAVE_IRODS", "HAVE_LIBCURL", "HAVE_MMAP"]

/-- The key/value pairs written by build_config for a builtin htslib
source: each whitelisted key with its defaultdict value.  For any other
htslib_source nothing beyond the header line is written. -/
def build_config_values (htslib_source : String)
    (config_h : List (List Char)) : Except PyError (List (String × Int)) :=
  if htslib_source == "builtin" then
    match read_config_values config_h [] with
    | Except.error e => Except.error e
    | Except.ok m =>
      Except.ok (config_whitelist.map (fun k => (k, lookupDefault0 m k.data)))
  else Except.ok []

/-- Rendering of pysam/config.py: the HTSLIB header line followed by one
KEY = VALUE line per pair. -/
def render_config_py (htslib_source_global : String)
    (vals : List (String × Int)) : String :=
  "HTSLIB = \"" ++ htslib_source_global ++ "\"\n" ++
  String.join (vals.map (fun kv => kv.1 ++ " = " ++ toString kv.2 ++ "\n"))

/-- Embeds build_config (setup.py lines 243-263) as a function from the
lines of htslib/config.h to the content written to pysam/config.py.  The
header line interpolates the module-level global HTSLIB_SOURCE (source line
246) while the branch condition tests the parameter htslib_source; at the
only call site the two are the same value. -/
def build_config (htslib_source HTSLIB_SOURCE_global : String)
    (config_h : List (List Char)) : Except PyError String :=
  match build_config_values htslib_source config_h with
  | Except.error e => Except.error e
  | Except.ok vals => Except.ok (render_config_py HTSLIB_SOURCE_global vals)

/-- The files build_config touches: it reads htslib/config.h and writes
pysam/config.py. -/
structure BuildFS where
  config_h : List (List Char)
  config_py : String
  deriving DecidableEq, Repr

/-- build_config as a transformer of the file state: reads config_h, writes
config_py, leaves config_h unchanged. -/
def build_config_st (htslib_source HTSLIB_SOURCE_global : String)
    (fs : BuildFS) : Except PyError BuildFS :=
  match build_config htslib_source HTSLIB_SOURCE_global fs.config_h with
  | Except.error e => Except.error e
  | Except.ok out => Except.ok { fs with config_py := out }

/-- The placeholder header of update_htslib_configure_options, as the list
of lines later read back by build_config (each line keeps its newline, as
Python file iteration yields it). -/
def placeholder_config_h_lines : List (List Char) :=
  ["/* empty config.h created by pysam */\n".data,
   "/* conservative compilation options */\n".data]

/-- One line's contribution to the specification-side flag value below:
the integer value of a hash-define line for the given key replaces the
accumulator, every other line leaves it. -/
def defineStep (key : List Char) (a : Int) (line : List Char) : Int :=
  match match_define line with
  | none => a
  | some kv =>
    match pyInt kv.2 with
    | none => a
    | some n => if kv.1 = key then n else a

/-- Specification-side reading of the feature-flag table, following the
claim's words: the integer value carried by the (last) hash-define line of
the header whose name is the given key, or 0 when the header has no such
line.  Lines whose value token is not an integer contribute nothing here;
the implementation instead raises on them, and the equivalence below is
stated under the hypothesis that reading succeeded. -/
def headerDefineValue (config_h : List (List Char)) (key : List Char) : Int :=
  config_h.foldl (defineStep key) 0

/-- The module-level exclusion list for the libcurl compensation (setup.py
line 306). -/
def EXCLUDE_HTSLIB : List String := ["htslib/hfile_libcurl.c"]

/-- Embeds the module-level exclusion compensation (setup.py lines
305-323): when the htslib source is builtin, a failed configuration (None)
or an explicit disable option prunes hfile_libcurl.c from both vendored
source lists; otherwise an explicit enable option appends curl and crypto
to the external libraries; any other option string changes nothing. -/
def apply_libcurl_compensation (HTSLIB_SOURCE : String)
    (htslib_configure_options : Option String) (v : HtslibVars) :
    HtslibVars :=
  if HTSLIB_SOURCE == "builtin" then
    match htslib_configure_options with
    | none =>
      { v with
        htslib_sources :=
          v.htslib_sources.filter (fun x => !(EXCLUDE_HTSLIB.contains x))
        shared_htslib_sources :=
          v.shared_htslib_sources.filter
            (fun x => !(EXCLUDE_HTSLIB.contains x)) }
    | some opts =>
      if strContains opts "--disable-libcurl" then
        { v with
          htslib_sources :=
            v.htslib_sources.filter (fun x => !(EXCLUDE_HTSLIB.contains x))
          shared_htslib_sources :=
            v.shared_htslib_sources.filter
              (fun x => !(EXCLUDE_HTSLIB.contains x)) }
      else if strContains opts "--enable-libcurl" then
        { v with
          external_htslib_libraries :=
            v.external_htslib_libraries ++ ["curl", "crypto"] }
      else v
  else v

/-- The module-level resolution flow from gen_htslib_vars (setup.py line
297) through the libcurl compensation (lines 305-323), as a function of the
environment inputs, the mode, the configure result, and the filesystem
inputs. -/
def module_resolve (HTSLIB_LIBRARY_DIR HTSLIB_INCLUDE_DIR : Option String)
    (HTSLIB_MODE : String) (htslib_configure_options : Option String)
    (htslib_glob : List String) (internal_lib : List String) :
    Except PyError HtslibVars :=
  match gen_htslib_vars HTSLIB_LIBRARY_DIR HTSLIB_INCLUDE_DIR HTSLIB_MODE
      htslib_glob internal_lib with
  | Except.error e => Except.error e
  | Except.ok v =>
    Except.ok (apply_libcurl_compensation (get_htslib_source HTSLIB_MODE)
      htslib_configure_options v)

/-- Whether the module-level compensation appends curl and crypto: a
successful option string containing the enable option and not the disable
option. -/
def libcurlEnabled (opts : Option String) : Bool :=
  match opts with
  | none => false
  | some s =>
    !(strContains s "--disable-libcurl") && strContains s "--enable-libcurl"

/-- Whether the module-level compensation prunes hfile_libcurl.c: no option
succeeded, or the successful option string contains the disable option. -/
def libcurlPruned (opts : Option String) : Bool :=
  match opts with
  | none => true
  | some s => strContains s "--disable-libcurl"

/-! ## Claim theorems -/

/-- Claim C7: changedir saves the current working directory, changes into
the given path, and restores the saved directory on every exit path of the
enclosed block.  The body's result type rho is arbitrary, so normal
completion, early return and exceptions (values of rho in this embedding)
are all covered; the body's other effects (files written) survive, only the
working directory is restored.  Consequently every call to the stateful
configure_library leaves the working directory as it found it, on the
missing-script error path as well as on every soft path. -/
theorem changedir_restores_cwd (rho : Type) (path : String)
    (body : OSState → rho × OSState) (s : OSState) :
    ((changedir path body s).2.cwd = s.cwd
      ∧ (changedir path body s).2.files
          = (body { s with cwd := path }).2.files)
  ∧ ∀ (fs_exists : String → Bool)
      (run : String → OSState → RunOutcome × OSState) (library_dir : String)
      (env_options : Option String) (options : List String),
      (configure_library_st fs_exists run library_dir env_options options
        s).2.cwd = s.cwd := by
  refine ⟨⟨rfl, rfl⟩, ?_⟩
  intro fs_exists run library_dir env_options options
  unfold configure_library_st
  cases hb : fs_exists (library_dir ++ "/configure")
  · rfl
  · rfl

/-- Claim C8 (code bug evidence): at the only call site of check_cython the
module-level global HTSLIB_MODE is still unbound (it is assigned from this
very call's result), and both branches of check_cython format a log message
that reads that global instead of the local htslib_mode, so the call raises
NameError whether or not cy_build is importable — it never returns the
shared or separate mode the claim (and the function's own comment) state. -/
theorem check_cython_raises_nameerror :
    check_cython true none = Except.error PyError.nameError
  ∧ check_cython false none = Except.error PyError.nameError :=
  ⟨rfl, rfl⟩

/-- Claim C2: configure_library raises exactly when the configure script
does not exist in library_dir.  Otherwise it returns, without exception,
the first option among env_options (when given) followed by the fallback
options, in order, whose configure invocation signals success, and None
when every attempt fails — non-zero exits and OSErrors are soft outcomes
absorbed by run_configure. -/
theorem configure_library_contract (fs_exists : String → Bool)
    (run : String → RunOutcome) (library_dir : String)
    (env_options : Option String) (options : List String) :
    ((∃ e, configure_library fs_exists run library_dir env_options options
        = Except.error e)
      ↔ fs_exists (library_dir ++ "/configure") = false)
  ∧ (fs_exists (library_dir ++ "/configure") = true →
      configure_library fs_exists run library_dir env_options options
        = Except.ok ((env_options.toList ++ options).find?
            (fun o => run_configure (run o))))
  ∧ (fs_exists (library_dir ++ "/configure") = true →
      (∀ o ∈ env_options.toList ++ options, run_configure (run o) = false) →
      configure_library fs_exists run library_dir env_options options
        = Except.ok none) := by
  have hmain : fs_exists (library_dir ++ "/configure") = true →
      configure_library fs_exists run library_dir env_options options
        = Except.ok ((env_options.toList ++ options).find?
            (fun o => run_configure (run o))) := by
    intro hb
    unfold configure_library
    rw [hb]
    cases env_options with
    | none => rfl
    | some e =>
      cases hr : run_configure (run e) with
      | false => simp [List.find?_cons, hr]
      | true => simp [List.find?_cons, hr]
  refine ⟨⟨?_, ?_⟩, hmain, ?_⟩
  · rintro ⟨e, he⟩
    cases hb : fs_exists (library_dir ++ "/configure") with
    | false => rfl
    | true => rw [hmain hb] at he; exact absurd he (by simp)
  · intro hb
    refine ⟨PyError.valueError, ?_⟩
    unfold configure_library
    rw [hb]
    rfl
  · intro hb hall
    rw [hmain hb, List.find?_eq_none.mpr (fun o ho => by simp [hall o ho])]

/-- Witness for claim C2 at concrete inputs: the script exists, the
environment option fails, the second fallback option is the first success
and is returned. -/
theorem configure_library_contract_witness :
    configure_library (fun _ => true)
      (fun o => if o == "--ok" then RunOutcome.exited 0
                else RunOutcome.exited 1)
      "htslib" (some "--env") ["--bad", "--ok"]
      = Except.ok (some "--ok") :=
  ((configure_library_contract (fun _ => true)
      (fun o => if o == "--ok" then RunOutcome.exited 0
                else RunOutcome.exited 1)
      "htslib" (some "--env") ["--bad", "--ok"]).2.1 rfl).trans (by rfl)

/-- Claim C3: in a vendored mode, when no configure option succeeds
(configure_library returns None), update_htslib_configure_options writes an
htslib/config.h whose content is exactly the two conservative comment
lines, and itself returns normally (the build proceeds). -/
theorem update_fallback_placeholder (htslib_mode : String)
    (fs_exists : String → Bool) (run : String → RunOutcome)
    (env_options : Option String)
    (hmode : htslib_mode = "shared" ∨ htslib_mode = "separate")
    (hfail : configure_library fs_exists run "htslib" env_options
        ["--enable-libcurl"] = Except.ok none) :
    update_htslib_configure_options htslib_mode fs_exists run env_options
      = Except.ok (none, some placeholder_config_h)
  ∧ placeholder_config_h =
      "/* empty config.h created by pysam */\n" ++
      "/* conservative compilation options */\n" := by
  refine ⟨?_, rfl⟩
  unfold update_htslib_configure_options
  rcases hmode with h | h <;> subst h <;> rw [hfail] <;> rfl

/-- Witness for claim C3: the configure script exists but every invocation
exits non-zero, so the placeholder header is written and returned. -/
theorem update_fallback_placeholder_witness :
    update_htslib_configure_options "shared" (fun _ => true)
      (fun _ => RunOutcome.exited 1) none
      = Except.ok (none, some placeholder_config_h) :=
  (update_fallback_placeholder "shared" (fun _ => true)
      (fun _ => RunOutcome.exited 1) none (Or.inl rfl) (by rfl)).1

/-- Claim C1 counterexample: with the external library directory set, the
vendored mode string still makes the htslib source builtin, so the
module-level compensation runs; when the configure invocation succeeded
with the enable-libcurl option (the default fallback attempt), curl and
crypto are appended to the external libraries, which therefore are not
exactly z and hts. -/
theorem external_mode_libraries_counterexample :
    (module_resolve (some "/usr/local") (some "/usr/local/include") "shared"
        (some "--enable-libcurl") [] []).map
      (fun v => v.external_htslib_libraries)
      = Except.ok ["z", "hts", "curl", "crypto"]
  ∧ (["z", "hts", "curl", "crypto"] : List String) ≠ ["z", "hts"] := by
  exact ⟨rfl, by decide⟩

/-- Claim C1 (amended): with a non-empty external library directory,
gen_htslib_vars itself returns empty vendored source lists, library
directories equal to the external directory, include directories equal to
the include variable, no internal libraries, and external libraries exactly
z and hts, independently of any configure options; after the module-level
compensation every component is still as stated except that curl and crypto
are appended to the external libraries exactly when the htslib source is
builtin and the successful option string enables libcurl without disabling
it. -/
theorem gen_htslib_vars_external_mode (lib inc : Option String)
    (mode : String) (opts : Option String) (glob ilib : List String)
    (h : pyTruthy lib = true) :
    gen_htslib_vars lib inc mode glob ilib
      = Except.ok
          { htslib_sources := []
            shared_htslib_sources := []
            chtslib_sources := []
            htslib_library_dirs := lib.toList
            htslib_include_dirs := [inc]
            internal_htslib_libraries := []
            external_htslib_libraries := ["z", "hts"] }
  ∧ module_resolve lib inc mode opts glob ilib
      = Except.ok
          { htslib_sources := []
            shared_htslib_sources := []
            chtslib_sources := []
            htslib_library_dirs := lib.toList
            htslib_include_dirs := [inc]
            internal_htslib_libraries := []
            external_htslib_libraries :=
              if get_htslib_source mode == "builtin" && libcurlEnabled opts
              then ["z", "hts", "curl", "crypto"] else ["z", "hts"] } := by
  have hgen : gen_htslib_vars lib inc mode glob ilib
      = Except.ok
          { htslib_sources := []
            shared_htslib_sources := []
            chtslib_sources := []
            htslib_library_dirs := lib.toList
            htslib_include_dirs := [inc]
            internal_htslib_libraries := []
            external_htslib_libraries := ["z", "hts"] } := by
    unfold gen_htslib_vars
    rw [h]
    rfl
  refine ⟨hgen, ?_⟩
  unfold module_resolve
  rw [hgen]
  unfold apply_libcurl_compensation
  cases hbuiltin : (get_htslib_source mode == "builtin") with
  | false => simp
  | true =>
    cases opts with
    | none => simp [libcurlEnabled]
    | some s =>
      cases hdis : strContains s "--disable-libcurl" with
      | true => simp [libcurlEnabled, hdis]
      | false =>
        cases hen : strContains s "--enable-libcurl" with
        | true => simp [libcurlEnabled, hdis, hen]
        | false => simp [libcurlEnabled, hdis, hen]

/-- Witness for the amended claim C1 at concrete inputs. -/
theorem gen_htslib_vars_external_mode_witness :
    gen_htslib_vars (some "/usr/local") (some "/usr/local/include") "shared"
        ["htslib/hfile.c"] []
      = Except.ok
          { htslib_sources := []
            shared_htslib_sources := []
            chtslib_sources := []
            htslib_library_dirs := ["/usr/local"]
            htslib_include_dirs := [some "/usr/local/include"]
            internal_htslib_libraries := []
            external_htslib_libraries := ["z", "hts"] } :=
  ((gen_htslib_vars_external_mode (some "/usr/local")
      (some "/usr/local/include") "shared" none
      ["htslib/hfile.c"] [] (by rfl)).1).trans (by rfl)

/-- Claim C5 counterexample: a successful configure option string that
contains neither the disable-libcurl nor the enable-libcurl substring (here
a bzip2 option) — so libcurl was simply never enabled and its feature flag
extracts to 0 — leaves hfile_libcurl.c in both vendored source lists: the
code only prunes on a None result or an explicit disable substring. -/
theorem libcurl_prune_counterexample :
    module_resolve none none "separate" (some "--disable-bz2")
        ["htslib/hfile.c", "htslib/hfile_libcurl.c"] []
      = Except.ok
          { htslib_sources := ["htslib/hfile.c", "htslib/hfile_libcurl.c"]
            shared_htslib_sources :=
              ["htslib/hfile.c", "htslib/hfile_libcurl.c"]
            chtslib_sources := []
            htslib_library_dirs := []
            htslib_include_dirs := [some "htslib"]
            internal_htslib_libraries := []
            external_htslib_libraries := ["z"] }
  ∧ ("htslib/hfile_libcurl.c" : String)
      ∈ ["htslib/hfile.c", "htslib/hfile_libcurl.c"]
  ∧ build_config_values "builtin" ["#define HAVE_MMAP 1\n".data]
      = Except.ok
          [("ENABLE_PLUGINS", 0), ("HAVE_COMMONCRYPTO", 0),
           ("HAVE_GMTIME_R", 0), ("HAVE_HMAC", 0), ("HAVE_IRODS", 0),
           ("HAVE_LIBCURL", 0), ("HAVE_MMAP", 1)] := by
  exact ⟨rfl, by decide, rfl⟩

/-- Claim C5 (amended): under a builtin htslib source, hfile_libcurl.c is
pruned from both vendored source lists exactly when configuration failed
entirely (None) or the successful option string contains the
disable-libcurl substring; a successful option string that merely never
enabled libcurl leaves both lists unchanged (as does an enabling one, which
only extends the external libraries). -/
theorem libcurl_prune_amended (lib inc : Option String) (mode : String)
    (opts : Option String) (glob ilib : List String) (v0 : HtslibVars)
    (hgen : gen_htslib_vars lib inc mode glob ilib = Except.ok v0)
    (hmode : get_htslib_source mode = "builtin") :
    module_resolve lib inc mode opts glob ilib
      = Except.ok (apply_libcurl_compensation "builtin" opts v0)
  ∧ (libcurlPruned opts = true →
      "htslib/hfile_libcurl.c"
          ∉ (apply_libcurl_compensation "builtin" opts v0).htslib_sources
      ∧ "htslib/hfile_libcurl.c"
          ∉ (apply_libcurl_compensation "builtin" opts
              v0).shared_htslib_sources)
  ∧ (libcurlPruned opts = false →
      (apply_libcurl_compensation "builtin" opts v0).htslib_sources
          = v0.htslib_sources
      ∧ (apply_libcurl_compensation "builtin" opts v0).shared_htslib_sources
          = v0.shared_htslib_sources) := by
  refine ⟨?_, ?_, ?_⟩
  · unfold module_resolve
    rw [hgen, hmode]
  · intro hp
    cases opts with
    | none =>
      constructor <;>
        simp [apply_libcurl_compensation, List.mem_filter, EXCLUDE_HTSLIB]
    | some s =>
      have hdis : strContains s "--disable-libcurl" = true := hp
      constructor <;>
        simp [apply_libcurl_compensation, hdis, List.mem_filter,
          EXCLUDE_HTSLIB]
  · intro hp
    cases opts with
    | none => exact absurd hp (by simp [libcurlPruned])
    | some s =>
      have hdis : strContains s "--disable-libcurl" = false := hp
      cases hen : strContains s "--enable-libcurl" with
      | true => constructor <;> simp [apply_libcurl_compensation, hdis, hen]
      | false => constructor <;> simp [apply_libcurl_compensation, hdis, hen]

/-- Witness for the amended claim C5: a failed configuration prunes the
libcurl source from both lists. -/
theorem libcurl_prune_amended_witness :
    "htslib/hfile_libcurl.c"
        ∉ (apply_libcurl_compensation "builtin" none
            { htslib_sources := ["htslib/hfile.c", "htslib/hfile_libcurl.c"]
              shared_htslib_sources :=
                ["htslib/hfile.c", "htslib/hfile_libcurl.c"]
              chtslib_sources := []
              htslib_library_dirs := []
              htslib_include_dirs := [some "htslib"]
              internal_htslib_libraries := []
              external_htslib_libraries := ["z"] }).htslib_sources :=
  ((libcurl_prune_amended none none "separate" none
      ["htslib/hfile.c", "htslib/hfile_libcurl.c"] []
      { htslib_sources := ["htslib/hfile.c", "htslib/hfile_libcurl.c"]
        shared_htslib_sources := ["htslib/hfile.c", "htslib/hfile_libcurl.c"]
        chtslib_sources := []
        htslib_library_dirs := []
        htslib_include_dirs := [some "htslib"]
        internal_htslib_libraries := []
        external_htslib_libraries := ["z"] }
      (by rfl) (by rfl)).2.1 (by rfl)).1

/-- In every successful branch of gen_htslib_vars the external libraries
are z and hts (external mode) or just z (vendored modes): in particular
neither curl nor crypto is present before the compensation step. -/
theorem gen_htslib_vars_external_libraries_cases (lib inc : Option String)
    (mode : String) (glob ilib : List String) (v0 : HtslibVars)
    (hgen : gen_htslib_vars lib inc mode glob ilib = Except.ok v0) :
    v0.external_htslib_libraries = ["z", "hts"]
      ∨ v0.external_htslib_libraries = ["z"] := by
  unfold gen_htslib_vars at hgen
  split_ifs at hgen <;> cases hgen <;> simp

/-- Claim C6: when the successful configure option string contains the
enable-libcurl substring and not the disable-libcurl substring, the
compensation step appends curl and crypto, each of which then appears
exactly once in the final external-libraries list, and neither vendored
source list is pruned. -/
theorem libcurl_enabled_once (lib inc : Option String) (mode s : String)
    (glob ilib : List String) (v0 v : HtslibVars)
    (henable : strContains s "--enable-libcurl" = true)
    (hdisable : strContains s "--disable-libcurl" = false)
    (hmode : get_htslib_source mode = "builtin")
    (hgen : gen_htslib_vars lib inc mode glob ilib = Except.ok v0)
    (hres : module_resolve lib inc mode (some s) glob ilib = Except.ok v) :
    v.external_htslib_libraries.count "curl" = 1
  ∧ v.external_htslib_libraries.count "crypto" = 1
  ∧ v.htslib_sources = v0.htslib_sources
  ∧ v.shared_htslib_sources = v0.shared_htslib_sources := by
  have hv : v = { v0 with
      external_htslib_libraries :=
        v0.external_htslib_libraries ++ ["curl", "crypto"] } := by
    unfold module_resolve at hres
    rw [hgen, hmode] at hres
    unfold apply_libcurl_compensation at hres
    simp only [hdisable, henable] at hres
    simpa using hres.symm
  subst hv
  refine ⟨?_, ?_, rfl, rfl⟩ <;>
    rcases gen_htslib_vars_external_libraries_cases lib inc mode glob ilib
      v0 hgen with hext | hext <;>
    simp [hext]

/-- Witness for claim C6 at concrete inputs: the enabling option string
appends curl and crypto once each, and the source lists stay intact. -/
theorem libcurl_enabled_once_witness :
    (HtslibVars.mk ["htslib/hfile_libcurl.c"] ["htslib/hfile_libcurl.c"] []
        [] [some "htslib"] []
        ["z", "curl", "crypto"]).external_htslib_libraries.count "curl" = 1
  ∧ (HtslibVars.mk ["htslib/hfile_libcurl.c"] ["htslib/hfile_libcurl.c"] []
        [] [some "htslib"] []
        ["z", "curl", "crypto"]).external_htslib_libraries.count "crypto"
      = 1
  ∧ (HtslibVars.mk ["htslib/hfile_libcurl.c"] ["htslib/hfile_libcurl.c"] []
        [] [some "htslib"] [] ["z", "curl", "crypto"]).htslib_sources
      = (HtslibVars.mk ["htslib/hfile_libcurl.c"] ["htslib/hfile_libcurl.c"]
          [] [] [some "htslib"] [] ["z"]).htslib_sources
  ∧ (HtslibVars.mk ["htslib/hfile_libcurl.c"] ["htslib/hfile_libcurl.c"] []
        [] [some "htslib"] [] ["z", "curl", "crypto"]).shared_htslib_sources
      = (HtslibVars.mk ["htslib/hfile_libcurl.c"] ["htslib/hfile_libcurl.c"]
          [] [] [some "htslib"] [] ["z"]).shared_htslib_sources :=
  libcurl_enabled_once none none "separate" "--enable-libcurl"
    ["htslib/hfile_libcurl.c"] []
    (HtslibVars.mk ["htslib/hfile_libcurl.c"] ["htslib/hfile_libcurl.c"] []
      [] [some "htslib"] [] ["z"])
    (HtslibVars.mk ["htslib/hfile_libcurl.c"] ["htslib/hfile_libcurl.c"] []
      [] [some "htslib"] [] ["z", "curl", "crypto"])
    (by decide) (by decide) (by rfl) (by rfl) (by rfl)

/-- A list starting with a concatenation also starts with the left part. -/
theorem startswithL_append_left (as bs s : List Char)
    (h : startswithL (as ++ bs) s = true) : startswithL as s = true := by
  induction as generalizing s with
  | nil => rfl
  | cons a as ih =>
    cases s with
    | nil => exact absurd h (by simp [startswithL])
    | cons c cs =>
      simp only [List.cons_append, startswithL, Bool.and_eq_true] at h
      simp only [startswithL, Bool.and_eq_true]
      exact ⟨h.1, ih cs h.2⟩

/-- A line that does not start with hash-define cannot match the define
regex, whose pattern extends that literal by a space. -/
theorem match_define_eq_none_of_no_prefix (line : List Char)
    (h : startswithL ("#define".data) line = false) :
    match_define line = none := by
  unfold match_define
  cases hs : startswithL ("#define ".data) line with
  | false => rfl
  | true =>
    exfalso
    have h8 : startswithL ("#define".data ++ [' ']) line = true := by
      have e : ("#define ".data : List Char) = "#define".data ++ [' '] := by
        decide
      rw [← e]
      exact hs
    rw [startswithL_append_left ("#define".data) [' '] line h8] at h
    exact Bool.noConfusion h

/-- Dict assignment followed by defaultdict lookup: the assigned key now
maps to the assigned value, every other key is untouched. -/
theorem lookupDefault0_assocSet (m : List (List Char × Int)) (k : List Char)
    (v : Int) (key : List Char) :
    lookupDefault0 (assocSet m k v) key
      = if k = key then v else lookupDefault0 m key := by
  induction m with
  | nil =>
    by_cases hk : k = key <;> simp [assocSet, lookupDefault0, hk]
  | cons kv rest ih =>
    by_cases h1 : kv.1 = k
    · by_cases h2 : k = key
      · subst h2
        simp [assocSet, h1, lookupDefault0]
      · have h3 : ¬(kv.1 = key) := by rw [h1]; exact h2
        simp [assocSet, h1, lookupDefault0, h2, h3]
    · by_cases h2 : kv.1 = key
      · have h4 : ¬(key = k) := fun hc => h1 (h2.trans hc)
        have h3 : ¬(k = key) := fun hc => h4 hc.symm
        simp [assocSet, h1, lookupDefault0, h2, h3, h4]
      · simp [assocSet, h1, lookupDefault0, h2, ih]

/-- A line the loop skips starts with no hash-define literal. -/
theorem parse_define_line_none (line : List Char)
    (hp : parse_define_line line = none) :
    startswithL ("#define".data) line = false := by
  cases h : startswithL ("#define".data) line with
  | false => rfl
  | true =>
    exfalso
    unfold parse_define_line at hp
    rw [h] at hp
    exact absurd hp (by simp)

/-- A skipped line contributes nothing to the specification-side value. -/
theorem defineStep_of_parse_none (line : List Char)
    (hp : parse_define_line line = none) (key : List Char) (a : Int) :
    defineStep key a line = a := by
  have hs := parse_define_line_none line hp
  have hm := match_define_eq_none_of_no_prefix line hs
  unfold defineStep
  rw [hm]

/-- A successfully parsed line contributes exactly its key and value to the
specification-side fold. -/
theorem defineStep_of_parse_ok (line : List Char) (kv : List Char × Int)
    (hp : parse_define_line line = some (Except.ok kv)) (key : List Char)
    (a : Int) :
    defineStep key a line = if kv.1 = key then kv.2 else a := by
  have hs : startswithL ("#define".data) line = true := by
    cases hst : startswithL ("#define".data) line with
    | true => rfl
    | false =>
      have hn : parse_define_line line = none := by
        unfold parse_define_line
        rw [hst]
        rfl
      rw [hn] at hp
      exact absurd hp (by simp)
  unfold parse_define_line at hp
  rw [hs] at hp
  simp only [if_true, Option.some.injEq] at hp
  cases hm : match_define line with
  | none => rw [hm] at hp; exact absurd hp (by simp)
  | some kv2 =>
    simp only [hm] at hp
    cases hi : pyInt kv2.2 with
    | none =>
      simp only [hi] at hp
      exact absurd hp (by simp)
    | some n =>
      simp only [hi, Except.ok.injEq] at hp
      subst hp
      simp only [defineStep, hm, hi]

/-- The defaultdict built by the read loop agrees, on every key, with the
specification-side fold started from the incoming accumulator's value. -/
theorem lookupDefault0_read_config_values (lines : List (List Char)) :
    ∀ (acc m : List (List Char × Int)),
      read_config_values lines acc = Except.ok m →
      ∀ key, lookupDefault0 m key
        = lines.foldl (defineStep key) (lookupDefault0 acc key) := by
  induction lines with
  | nil =>
    intro acc m h key
    unfold read_config_values at h
    injection h with h1
    rw [← h1]
    rfl
  | cons line rest ih =>
    intro acc m h key
    unfold read_config_values at h
    cases hp : parse_define_line line with
    | none =>
      rw [hp] at h
      rw [List.foldl_cons, defineStep_of_parse_none line hp]
      exact ih acc m h key
    | some res =>
      cases res with
      | error e => rw [hp] at h; exact absurd h (by simp)
      | ok kv =>
        rw [hp] at h
        rw [List.foldl_cons, defineStep_of_parse_ok line kv hp,
          ← lookupDefault0_assocSet acc kv.1 kv.2 key]
        exact ih (assocSet acc kv.1 kv.2) m h key

/-- A raising line anywhere in the header makes the read loop raise. -/
theorem read_config_values_error_of_bad (lines : List (List Char)) :
    ∀ (acc : List (List Char × Int)) (line : List Char) (e : PyError),
      line ∈ lines → parse_define_line line = some (Except.error e) →
      ∃ e', read_config_values lines acc = Except.error e' := by
  induction lines with
  | nil =>
    intro acc line e hmem _
    exact absurd hmem (List.not_mem_nil line)
  | cons l rest ih =>
    intro acc line e hmem hbad
    unfold read_config_values
    cases hp : parse_define_line l with
    | none =>
      rcases List.mem_cons.mp hmem with heq | hmem2
      · subst heq; rw [hp] at hbad; exact absurd hbad (by simp)
      · exact ih acc line e hmem2 hbad
    | some res =>
      cases res with
      | error e1 => exact ⟨e1, rfl⟩
      | ok kv =>
        rcases List.mem_cons.mp hmem with heq | hmem2
        · subst heq; rw [hp] at hbad; exact absurd hbad (by simp)
        · exact ih (assocSet acc kv.1 kv.2) line e hmem2 hbad

/-- When every hash-define line parses, the read loop returns normally. -/
theorem read_config_values_ok_of_good (lines : List (List Char)) :
    ∀ acc, (∀ line ∈ lines, startswithL ("#define".data) line = true →
        ∃ kv, parse_define_line line = some (Except.ok kv)) →
      ∃ m, read_config_values lines acc = Except.ok m := by
  induction lines with
  | nil =>
    intro acc _
    exact ⟨acc, rfl⟩
  | cons l rest ih =>
    intro acc h
    unfold read_config_values
    cases hp : parse_define_line l with
    | none =>
      exact ih acc (fun line hm hs => h line (List.mem_cons_of_mem l hm) hs)
    | some res =>
      cases res with
      | error e =>
        exfalso
        have hs : startswithL ("#define".data) l = true := by
          cases hst : startswithL ("#define".data) l with
          | true => rfl
          | false =>
            have hn : parse_define_line l = none := by
              unfold parse_define_line
              rw [hst]
              rfl
            rw [hn] at hp
            exact absurd hp (by simp)
        rcases h l (List.mem_cons_self l rest) hs with ⟨kv, hkv⟩
        rw [hkv] at hp
        exact absurd hp (by simp)
      | ok kv =>
        exact ih (assocSet acc kv.1 kv.2)
          (fun line hm hs => h line (List.mem_cons_of_mem l hm) hs)

/-- Claim C4: on a header all of whose hash-define lines parse (reading
succeeds), build_config writes exactly the seven whitelisted flag names, in
order, each with the integer value carried by the (last) hash-define line
of the header for that name, and 0 for a name with no such line; every
whitelisted key is present in the output, never missing. -/
theorem build_config_whitelist_exact (config_h : List (List Char))
    (m : List (List Char × Int))
    (h : read_config_values config_h [] = Except.ok m) :
    build_config_values "builtin" config_h
      = Except.ok (config_whitelist.map
          (fun k => (k, headerDefineValue config_h k.data)))
  ∧ (config_whitelist.map
        (fun k => (k, headerDefineValue config_h k.data))).map Prod.fst
      = config_whitelist := by
  constructor
  · have hbase : build_config_values "builtin" config_h
        = Except.ok (config_whitelist.map
            (fun k => (k, lookupDefault0 m k.data))) := by
      unfold build_config_values
      rw [h]
      rfl
    have hfun : (fun k : String => (k, lookupDefault0 m k.data))
        = fun k : String => (k, headerDefineValue config_h k.data) := by
      funext k
      have h2 := lookupDefault0_read_config_values config_h [] m h k.data
      unfold headerDefineValue
      simpa [lookupDefault0] using h2
    rw [hbase, hfun]
  · rfl

/-- Witness for claim C4 at a concrete one-line header. -/
theorem build_config_whitelist_exact_witness :
    build_config_values "builtin" ["#define HAVE_LIBCURL 1\n".data]
      = Except.ok (config_whitelist.map (fun k =>
          (k, headerDefineValue ["#define HAVE_LIBCURL 1\n".data]
            k.data))) :=
  (build_config_whitelist_exact ["#define HAVE_LIBCURL 1\n".data]
    [("HAVE_LIBCURL".data, 1)] (by rfl)).1

/-- Claim C9: build_config is idempotent and deterministic as a transformer
of the file state: it reads htslib/config.h and only writes pysam/config.py,
so a second run over the state it produced returns that very state, and the
flag mapping extracted in both runs is the same. -/
theorem build_config_idempotent (htslib_source g : String) (fs fs2 : BuildFS)
    (h : build_config_st htslib_source g fs = Except.ok fs2) :
    build_config_st htslib_source g fs2 = Except.ok fs2
  ∧ build_config_values htslib_source fs2.config_h
      = build_config_values htslib_source fs.config_h := by
  unfold build_config_st at h
  cases hb : build_config htslib_source g fs.config_h with
  | error e => rw [hb] at h; exact absurd h (by simp)
  | ok out =>
    rw [hb] at h
    injection h with h1
    rw [← h1]
    constructor
    · unfold build_config_st
      have hch : ({ fs with config_py := out } : BuildFS).config_h
          = fs.config_h := rfl
      rw [hch, hb]
    · rfl

/-- Witness for claim C9 at a concrete file state. -/
theorem build_config_idempotent_witness :
    build_config_st "builtin" "builtin"
        (BuildFS.mk ["#define HAVE_MMAP 1\n".data]
          "HTSLIB = \"builtin\"\nENABLE_PLUGINS = 0\nHAVE_COMMONCRYPTO = 0\nHAVE_GMTIME_R = 0\nHAVE_HMAC = 0\nHAVE_IRODS = 0\nHAVE_LIBCURL = 0\nHAVE_MMAP = 1\n")
      = Except.ok
          (BuildFS.mk ["#define HAVE_MMAP 1\n".data]
            "HTSLIB = \"builtin\"\nENABLE_PLUGINS = 0\nHAVE_COMMONCRYPTO = 0\nHAVE_GMTIME_R = 0\nHAVE_HMAC = 0\nHAVE_IRODS = 0\nHAVE_LIBCURL = 0\nHAVE_MMAP = 1\n") :=
  (build_config_idempotent "builtin" "builtin"
    (BuildFS.mk ["#define HAVE_MMAP 1\n".data] "")
    (BuildFS.mk ["#define HAVE_MMAP 1\n".data]
      "HTSLIB = \"builtin\"\nENABLE_PLUGINS = 0\nHAVE_COMMONCRYPTO = 0\nHAVE_GMTIME_R = 0\nHAVE_HMAC = 0\nHAVE_IRODS = 0\nHAVE_LIBCURL = 0\nHAVE_MMAP = 1\n")
    (by rfl)).1

/-- Claim C10: feature-flag extraction is not total over header contents.
Any header containing a line that starts with the hash-define literal whose
value token is missing or is not an integer makes build_config raise
(AttributeError when the regex does not match, ValueError when int fails);
it returns normally on headers all of whose hash-define lines carry integer
values; and the two-line synthesized placeholder header contains no
hash-define line at all, so build_config accepts it vacuously. -/
theorem build_config_raises_on_bad_defines (g : String) :
    (∀ (config_h : List (List Char)) (line : List Char), line ∈ config_h →
        startswithL ("#define".data) line = true →
        (match_define line = none ∨
          ∃ kv, match_define line = some kv ∧ pyInt kv.2 = none) →
        ∃ e, build_config "builtin" g config_h = Except.error e)
  ∧ (∀ config_h : List (List Char),
        (∀ line ∈ config_h, startswithL ("#define".data) line = true →
          ∃ kv n, match_define line = some kv ∧ pyInt kv.2 = some n) →
        ∃ out, build_config "builtin" g config_h = Except.ok out)
  ∧ (∀ line ∈ placeholder_config_h_lines,
        startswithL ("#define".data) line = false)
  ∧ (∃ out, build_config "builtin" g placeholder_config_h_lines
        = Except.ok out) := by
  refine ⟨?_, ?_, by decide, ⟨_, rfl⟩⟩
  · intro config_h line hmem hs hbad
    have hparse : ∃ e0, parse_define_line line
        = some (Except.error e0) := by
      unfold parse_define_line
      rw [hs]
      rcases hbad with hm | ⟨kv, hm, hi⟩
      · exact ⟨PyError.attributeError, by rw [hm]; rfl⟩
      · exact ⟨PyError.valueError, by rw [hm]; simp [hi]⟩
    rcases hparse with ⟨e0, hp⟩
    rcases read_config_values_error_of_bad config_h [] line e0 hmem hp
      with ⟨e', he'⟩
    refine ⟨e', ?_⟩
    unfold build_config build_config_values
    rw [he']
    rfl
  · intro config_h hgood
    have hgood2 : ∀ line ∈ config_h,
        startswithL ("#define".data) line = true →
        ∃ kv, parse_define_line line = some (Except.ok kv) := by
      intro line hm hs
      rcases hgood line hm hs with ⟨kv, n, hmd, hi⟩
      refine ⟨(kv.1, n), ?_⟩
      unfold parse_define_line
      rw [hs]
      simp [hmd, hi]
    rcases read_config_values_ok_of_good config_h [] hgood2 with ⟨m, hm⟩
    refine ⟨render_config_py g
      (config_whitelist.map (fun k => (k, lookupDefault0 m k.data))), ?_⟩
    unfold build_config build_config_values
    rw [hm]
    rfl

/-- Witness for claim C10: a header whose single hash-define line carries a
non-integer value token makes build_config raise. -/
theorem build_config_raises_on_bad_defines_witness :
    build_config "builtin" "builtin" ["#define HAVE_MMAP nonint\n".data]
      = Except.error PyError.valueError := by
  have happ := (build_config_raises_on_bad_defines "builtin").1
    ["#define HAVE_MMAP nonint\n".data] "#define HAVE_MMAP nonint\n".data
    (by decide) (by decide)
    (Or.inr ⟨("HAVE_MMAP".data, "nonint".data), by decide, by decide⟩)
  rcases happ with ⟨e, he⟩
  have hval : build_config "builtin" "builtin"
      ["#define HAVE_MMAP nonint\n".data]
      = Except.error PyError.valueError := rfl
  exact hval

end PysamSetup
